import Mathlib

/-!
Verification of the changelog-fragment checker in `check_changelog.py`.

The development shallowly embeds the content-bearing functions of the script
(`parse_toml`, `collect_possible_changelog_files`, `validate_cl_candidates`
with its nested helpers `strip_if_integer_string` and
`parse_newfragment_basename`) as executable Lean functions, together with
models of the Python string and path primitives they use
(`str.split`, `str.lstrip`, `str.startswith`, `str.endswith`, `str.isdigit`,
`int(...)`, `os.path.dirname`, `os.path.join`).  Printed diagnostics are
modelled as an explicit list of `Diag` events; a raised exception is
modelled as a `none` result.
-/

namespace TowncrierCheck

/-! ## Models of the Python primitives -/

/-- Boolean test that the first character list is an initial segment of the
second; used to model `str.startswith` / `str.endswith`. -/
def hasPref : List Char → List Char → Bool
  | [], _ => true
  | _ :: _, [] => false
  | a :: as, b :: bs => a == b && hasPref as bs

/-- Model of Python `s.startswith(p)`. -/
def pyStartswith (s p : String) : Bool :=
  hasPref p.toList s.toList

/-- Model of Python `s.endswith(p)`. -/
def pyEndswith (s p : String) : Bool :=
  hasPref p.toList.reverse s.toList.reverse

/-- Model of Python `s.lstrip(chars)`: removes every leading character of `s`
that occurs anywhere in `chars` (character-set trimming, not removal of the
literal string `chars`). -/
def pyLstrip (s chars : String) : String :=
  String.mk (s.toList.dropWhile (fun c => decide (c ∈ chars.toList)))

/-- Split a character list at every occurrence of `sep`; the pieces do not
contain `sep`.  `splitOnChar sep [] = [[]]`, matching Python. -/
def splitOnChar (sep : Char) : List Char → List (List Char)
  | [] => [[]]
  | c :: rest =>
    match splitOnChar sep rest with
    | [] => [[]]
    | h :: t => if c = sep then [] :: h :: t else (c :: h) :: t

/-- Model of Python `s.split(".")`. -/
def pySplitDot (s : String) : List String :=
  (splitOnChar '.' s.toList).map String.mk

/-- Model of Python `s.isdigit()` on ASCII strings: non-empty and every
character a decimal digit.  (CPython also accepts non-ASCII digit
characters; they play no role here.) -/
def pyIsdigit (s : String) : Bool :=
  !s.toList.isEmpty && s.toList.all Char.isDigit

/-- Decimal value of a digit-character list. -/
def digitsToNat (cs : List Char) : Nat :=
  cs.foldl (fun a c => 10 * a + (c.toNat - 48)) 0

/-- Model of Python `int(s)` on ASCII strings: an optional single sign
followed by at least one digit, otherwise a `ValueError` (here `none`).
(CPython additionally accepts surrounding whitespace, underscore digit
separators and non-ASCII digits; none of those occur in the claims.) -/
def pyInt? (s : String) : Option Int :=
  match s.toList with
  | [] => none
  | '-' :: rest =>
    if !rest.isEmpty && rest.all Char.isDigit then some (-(digitsToNat rest : Int)) else none
  | '+' :: rest =>
    if !rest.isEmpty && rest.all Char.isDigit then some ((digitsToNat rest : Int)) else none
  | l =>
    if l.all Char.isDigit then some ((digitsToNat l : Int)) else none

/-- Model of `posixpath.dirname`: everything before the last `/`, with
trailing slashes removed unless the head consists only of slashes. -/
def pyDirname (p : String) : String :=
  let cs := p.toList
  let tailLen := (cs.reverse.takeWhile (fun c => c ≠ '/')).length
  let head := cs.take (cs.length - tailLen)
  if !head.isEmpty && head.any (fun c => c ≠ '/') then
    String.mk ((head.reverse.dropWhile (fun c => c = '/')).reverse)
  else
    String.mk head

/-- Model of `posixpath.join` on two components: an absolute second component
replaces the first; otherwise the components are joined with `/` unless the
first is empty or already ends in `/`. -/
def pyPathJoin (a b : String) : String :=
  if pyStartswith b "/" then b
  else if a = "" || pyEndswith a "/" then a ++ b
  else a ++ "/" ++ b

/-! ## Configuration data model (`parse_toml`, source lines 10-55) -/

/-- Display metadata of one changelog category (`{"name": ..., "showcontent": ...}`). -/
structure TypeInfo where
  name : String
  showcontent : Bool
deriving DecidableEq

/-- One entry of the raw `[[tool.towncrier.section]]` array:
`name` is optional (`x.get("name", "")`), `path` is required (`x["path"]`). -/
structure SectionEntry where
  name : Option String
  path : String
deriving DecidableEq

/-- One entry of the raw `[[tool.towncrier.type]]` array; all three keys are
required by the source (`x["directory"]`, `x["name"]`, `x["showcontent"]`). -/
structure TypeEntry where
  directory : String
  name : String
  showcontent : Bool
deriving DecidableEq

/-- The raw `[tool.towncrier]` table of the configuration document, holding
exactly the keys `parse_toml` reads.  `sectionList` models the TOML key
`section` and `typeList` the TOML key `type` (both optional arrays). -/
structure TowncrierTable where
  package : Option String
  package_dir : Option String
  directory : Option String
  sectionList : Option (List SectionEntry)
  typeList : Option (List TypeEntry)
deriving DecidableEq

/-- The dictionary returned by `parse_toml` (source lines 49-55).
`sections` and `types` are insertion-ordered association lists, modelling
the `OrderedDict`s of the source. -/
structure TowncrierConfig where
  package : String
  package_dir : String
  directory : Option String
  sections : List (String × String)
  types : List (String × TypeInfo)
deriving DecidableEq

/-- `OrderedDict` assignment `d[k] = v`: update in place when the key is
present (keeping its position), otherwise append. -/
def odInsert {α : Type} (l : List (String × α)) (k : String) (v : α) :
    List (String × α) :=
  if l.any (fun p => p.1 = k) then
    l.map (fun p => if p.1 = k then (k, v) else p)
  else
    l ++ [(k, v)]

/-- The module-level `_default_types` table (source lines 11-16). -/
def _default_types : List (String × TypeInfo) :=
  [("feature", ⟨"Features", true⟩),
   ("bugfix", ⟨"Bugfixes", true⟩),
   ("doc", ⟨"Improved Documentation", true⟩),
   ("removal", ⟨"Deprecations and Removals", true⟩),
   ("misc", ⟨"Misc", false⟩)]

/-- `parse_toml` (source lines 21-55).  The argument is the already looked-up
`[tool.towncrier]` table, `none` when the section is absent (the `KeyError`
raised on source line 29 becomes `Except.error`). -/
def parse_toml (config : Option TowncrierTable) : Except String TowncrierConfig :=
  match config with
  | none => Except.error "No [tool.towncrier] section found in the pyproject.toml"
  | some config =>
    let sections : List (String × String) :=
      match config.sectionList with
      | some xs => xs.foldl (fun acc x => odInsert acc (x.name.getD "") x.path) []
      | none => [("", "")]
    let types : List (String × TypeInfo) :=
      match config.typeList with
      | some xs =>
        xs.foldl (fun acc x => odInsert acc x.directory ⟨x.name, x.showcontent⟩) []
      | none => _default_types
    Except.ok
      { package := config.package.getD ""
        package_dir := config.package_dir.getD "."
        directory := config.directory
        sections := sections
        types := types }

/-! ## Candidate collection (`collect_possible_changelog_files`, lines 58-95) -/

/-- Body of the `for filename in pr_files` loop (source lines 78-93) for one
file: `none` when the file is skipped, `some r` when `r` is appended to
`possible_cl_files`.  Source line 89 computes `filename.lstrip(sdir).lstrip("/")`
without assigning the result, so the subsection loop never changes
`filename`; the discarded computations are mirrored by the unused `let`. -/
def collectStep (cl_base_dir : String) (section_dirs : List String)
    (filename : String) : Option String :=
  if !(pyEndswith filename ".rst") then none
  else if !(pyStartswith filename cl_base_dir) then none
  else
    let filename := pyLstrip (pyLstrip filename cl_base_dir) "/"
    let _discarded := section_dirs.map (fun sdir =>
      if pyStartswith filename sdir then pyLstrip (pyLstrip filename sdir) "/"
      else filename)
    if filename ≠ "" then some filename else none

/-- `collect_possible_changelog_files` (source lines 58-95). -/
def collect_possible_changelog_files (pr_files : List String)
    (config : TowncrierConfig) : List String :=
  let section_dirs := config.sections.map Prod.snd
  let cl_base_dir :=
    match config.directory with
    | some d => d
    | none => pyPathJoin (pyPathJoin config.package_dir config.package) "newsfragments"
  pr_files.filterMap (collectStep cl_base_dir section_dirs)

/-- Loop body of candidate collection as §4.2 of the specification states it:
identical to `collectStep` except that the result of the subsection strip is
retained.  Present only to exhibit how the code diverges from the
specification on source line 89. -/
def collectStepSpec (cl_base_dir : String) (section_dirs : List String)
    (filename : String) : Option String :=
  if !(pyEndswith filename ".rst") then none
  else if !(pyStartswith filename cl_base_dir) then none
  else
    let filename := pyLstrip (pyLstrip filename cl_base_dir) "/"
    let filename := section_dirs.foldl (fun fn sdir =>
      if pyStartswith fn sdir then pyLstrip (pyLstrip fn sdir) "/" else fn) filename
    if filename ≠ "" then some filename else none

/-- Candidate collection as the specification states it (subsection strip
retained); comparison definition for the divergence on source line 89. -/
def collect_possible_changelog_files_spec (pr_files : List String)
    (config : TowncrierConfig) : List String :=
  let section_dirs := config.sections.map Prod.snd
  let cl_base_dir :=
    match config.directory with
    | some d => d
    | none => pyPathJoin (pyPathJoin config.package_dir config.package) "newsfragments"
  pr_files.filterMap (collectStepSpec cl_base_dir section_dirs)

/-! ## Basename parsing (`validate_cl_candidates` inner helpers, lines 100-146) -/

/-- `strip_if_integer_string` (source lines 100-106): canonicalise a string
that parses as an integer to its decimal form, keep any other string. -/
def strip_if_integer_string (s : String) : String :=
  match pyInt? s with
  | none => s
  | some i => toString i

/-- The counter extracted from the parts that follow a matched category
(source lines 138-142): the next part when it exists and is all digits,
otherwise `0`. -/
def counterOf : List String → Int
  | [] => 0
  | next :: _ => if pyIsdigit next then ((digitsToNat next.toList : Nat) : Int) else 0

/-- The `for i in range(1, len(_parts))` scan of `parse_newfragment_basename`
(source lines 129-146), carrying the previous part: the first part found in
`definitions` becomes the category, the part before it the ticket, the part
after it the counter. -/
def scanParts (definitions : List String) :
    String → List String → Option String × Option String × Option Int
  | _, [] => (none, none, none)
  | prev, cur :: rest =>
    if cur ∈ definitions then
      (some (strip_if_integer_string prev), some cur, some (counterOf rest))
    else
      scanParts definitions cur rest

/-- `parse_newfragment_basename` (source lines 112-146). -/
def parse_newfragment_basename (basename : String) (definitions : List String) :
    Option String × Option String × Option Int :=
  match pySplitDot basename with
  | [] => (none, none, none)
  | [_] => (none, none, none)
  | [ticket, category] =>
    if category ∈ definitions then
      (some (strip_if_integer_string ticket), some category, some 0)
    else
      (none, none, none)
  | p :: rest => scanParts definitions p rest

/-! ## Candidate validation (`validate_cl_candidates`, lines 148-186) -/

/-- One printed diagnostic line of `validate_cl_candidates`, by source line:
`noChangelogFiles` 151, `invalidSubdir` 159, `parsedParts` 166,
`invalidNameOrType` 170, `validFile` 176, `summaryInvalid` 179. -/
inductive Diag where
  | noChangelogFiles (pr_num : Int)
  | invalidSubdir (filename : String)
  | parsedParts (filename : String)
      (parts : Option String × Option String × Option Int)
  | invalidNameOrType (filename : String)
  | validFile (filename : String)
  | summaryInvalid
deriving DecidableEq

/-- Body of the `for filename in filenames` loop (source lines 156-176) for
one candidate: `(some true, _)` when the file is accepted, `(some false, _)`
when it is rejected, `(none, _)` when `int(parts[0])` raises (a `TypeError`
on a `None` ticket or a `ValueError` on a non-integer string). -/
def processFile (pr_num : Int) (types : List String) (filename : String) :
    Option Bool × List Diag :=
  if pyDirname filename ≠ "" then
    (some false, [Diag.invalidSubdir filename])
  else
    let parts := parse_newfragment_basename filename types
    let d0 : List Diag := [Diag.parsedParts filename parts]
    if parts = (none, none, none) then
      (some false, d0 ++ [Diag.invalidNameOrType filename])
    else
      match parts.1 with
      | none => (none, d0)
      | some t =>
        match pyInt? t with
        | none => (none, d0)
        | some i =>
          if i ≠ pr_num then (some false, d0 ++ [Diag.invalidNameOrType filename])
          else (some true, d0 ++ [Diag.validFile filename])

/-- The candidate loop threading the `valid` flag (source lines 156-176);
an exception from `processFile` aborts the run. -/
def validateLoop (pr_num : Int) (types : List String) :
    List String → Bool → Option Bool × List Diag
  | [], valid => (some valid, [])
  | f :: rest, valid =>
    match processFile pr_num types f with
    | (none, d) => (none, d)
    | (some ok, d) =>
      let r := validateLoop pr_num types rest (valid && ok)
      (r.1, d ++ r.2)

/-- `validate_cl_candidates` (source lines 98-186): `valid` starts `True` and
is set `False` with a distinct diagnostic when the list is empty (lines
149-154); the closing summary (lines 178-184) is printed when the final flag
is `False`. -/
def validate_cl_candidates (filenames : List String) (pr_num : Int)
    (types : List String) : Option Bool × List Diag :=
  let valid0 : Bool := filenames.length != 0
  let d0 : List Diag :=
    if filenames.length = 0 then [Diag.noChangelogFiles pr_num] else []
  match validateLoop pr_num types filenames valid0 with
  | (none, d) => (none, d0 ++ d)
  | (some v, d) => (some v, d0 ++ d ++ if v then [] else [Diag.summaryInvalid])

/-! ## Helper lemmas about the parser scan -/

theorem scanParts_no_match (defs : List String) :
    ∀ (l : List String) (prev : String), (∀ x ∈ l, x ∉ defs) →
      scanParts defs prev l = (none, none, none) := by
  intro l
  induction l with
  | nil => intro prev _; rfl
  | cons a t ih =>
    intro prev h
    have ha : a ∉ defs := h a (by simp)
    simp only [scanParts, if_neg ha]
    exact ih a (fun x hx => h x (by simp [hx]))

theorem scanParts_first_match (defs : List String) :
    ∀ (r1 : List String) (c : String) (r2 : List String) (prev : String),
      c ∈ defs → (∀ x ∈ r1, x ∉ defs) →
      scanParts defs prev (r1 ++ c :: r2) =
        (some (strip_if_integer_string (r1.getLastD prev)), some c,
         some (counterOf r2)) := by
  intro r1
  induction r1 with
  | nil =>
    intro c r2 prev hc _
    simp only [List.nil_append, scanParts, if_pos hc, List.getLastD]
  | cons a t ih =>
    intro c r2 prev hc h1
    have ha : a ∉ defs := h1 a (by simp)
    simp only [List.cons_append, scanParts, if_neg ha, List.append_eq]
    rw [ih c r2 a hc (fun x hx => h1 x (by simp [hx]))]
    cases t <;> rfl

theorem counterOf_nonneg : ∀ l : List String, 0 ≤ counterOf l := by
  intro l
  cases l with
  | nil => simp [counterOf]
  | cons a t =>
    simp only [counterOf]
    split
    · exact Int.natCast_nonneg _
    · exact le_refl 0

theorem parse_eq_scanParts (basename : String) (defs : List String)
    (p0 : String) (t : List String) (h : pySplitDot basename = p0 :: t)
    (hlen : 2 ≤ t.length) :
    parse_newfragment_basename basename defs = scanParts defs p0 t := by
  obtain ⟨q1, t1, rfl⟩ : ∃ q1 t1, t = q1 :: t1 := by
    cases t with
    | nil => simp at hlen
    | cons q1 t1 => exact ⟨q1, t1, rfl⟩
  obtain ⟨q2, t2, rfl⟩ : ∃ q2 t2, t1 = q2 :: t2 := by
    cases t1 with
    | nil => simp at hlen
    | cons q2 t2 => exact ⟨q2, t2, rfl⟩
  simp [parse_newfragment_basename, h]

/-! ## C3: the ≥3-part scan of `parse_newfragment_basename` -/

/-- C3: for a basename splitting into at least 3 parts, the parser scans
positions 1 onward; at the first part equal to a recognised category it
returns that part as the category, the normalised preceding part as the
ticket, and the following part as the counter when it exists and is all
digits (else 0); with no recognised part it returns the sentinel; in
particular `"fix-1.2.3.feature"` yields ticket `"3"`. -/
theorem parse_three_plus_first_match :
    (∀ (basename : String) (defs : List String) (p0 : String) (r1 : List String)
        (c : String) (r2 : List String),
      pySplitDot basename = p0 :: (r1 ++ c :: r2) →
      3 ≤ (pySplitDot basename).length →
      c ∈ defs → (∀ x ∈ r1, x ∉ defs) →
      parse_newfragment_basename basename defs =
        (some (strip_if_integer_string (r1.getLastD p0)), some c,
         some (counterOf r2))) ∧
    (∀ (basename : String) (defs : List String) (p0 : String) (rest : List String),
      pySplitDot basename = p0 :: rest →
      3 ≤ (pySplitDot basename).length →
      (∀ x ∈ rest, x ∉ defs) →
      parse_newfragment_basename basename defs = (none, none, none)) ∧
    parse_newfragment_basename "fix-1.2.3.feature" ["feature"] =
      (some "3", some "feature", some 0) := by
  refine ⟨?_, ?_, by decide⟩
  · intro basename defs p0 r1 c r2 h hlen hc h1
    rw [h] at hlen
    have hlen' : 2 ≤ (r1 ++ c :: r2).length := by
      simp only [List.length_cons] at hlen
      omega
    rw [parse_eq_scanParts basename defs p0 (r1 ++ c :: r2) h hlen']
    exact scanParts_first_match defs r1 c r2 p0 hc h1
  · intro basename defs p0 rest h hlen hrest
    rw [h] at hlen
    have hlen' : 2 ≤ rest.length := by
      simp only [List.length_cons] at hlen
      omega
    rw [parse_eq_scanParts basename defs p0 rest h hlen']
    exact scanParts_no_match defs rest p0 hrest

/-- Witness for C3: the first conjunct applied at the spec's own example. -/
theorem parse_three_plus_first_match_witness :
    parse_newfragment_basename "fix-1.2.3.feature" ["feature"] =
      (some "3", some "feature", some 0) := by
  have h := parse_three_plus_first_match.1 "fix-1.2.3.feature" ["feature"]
    "fix-1" ["2", "3"] "feature" [] (by decide) (by decide) (by decide) (by decide)
  exact h.trans (by decide)

/-! ## C6: the 1-part and 2-part cases of `parse_newfragment_basename` -/

/-- C6: a basename splitting into exactly 1 part is unparseable; exactly
2 parts yields `(ticket, category, 0)` when the second part is a recognised
category and the sentinel otherwise, the ticket being normalised: a string
parsing as an integer is replaced by its decimal form, any other string is
kept unchanged. -/
theorem parse_short_cases :
    (∀ (basename : String) (defs : List String),
      (pySplitDot basename).length = 1 →
      parse_newfragment_basename basename defs = (none, none, none)) ∧
    (∀ (basename : String) (defs : List String) (t c : String),
      pySplitDot basename = [t, c] →
      parse_newfragment_basename basename defs =
        if c ∈ defs then (some (strip_if_integer_string t), some c, some 0)
        else (none, none, none)) ∧
    (∀ (t : String) (i : Int), pyInt? t = some i →
      strip_if_integer_string t = toString i) ∧
    (∀ t : String, pyInt? t = none → strip_if_integer_string t = t) := by
  refine ⟨?_, ?_, ?_, ?_⟩
  · intro basename defs hlen
    rcases h : pySplitDot basename with _ | ⟨p0, _ | ⟨p1, t⟩⟩
    · simp [parse_newfragment_basename, h]
    · simp [parse_newfragment_basename, h]
    · rw [h] at hlen; simp at hlen
  · intro basename defs t c h
    simp [parse_newfragment_basename, h]
  · intro t i hi
    simp [strip_if_integer_string, hi]
  · intro t hi
    simp [strip_if_integer_string, hi]

/-- Witness for C6: the 2-part conjunct at a leading-zero ticket and the
1-part conjunct at a dot-free basename. -/
theorem parse_short_cases_witness :
    parse_newfragment_basename "007.feature" ["feature"] =
      (some "7", some "feature", some 0) ∧
    parse_newfragment_basename "nodots" ["feature"] = (none, none, none) := by
  have h2 := parse_short_cases.2.1 "007.feature" ["feature"] "007" "feature" (by decide)
  have h1 := parse_short_cases.1 "nodots" ["feature"] (by decide)
  exact ⟨h2.trans (by decide), h1⟩

/-! ## C9: the parser never returns a partially null triple -/

theorem scanParts_inv (defs : List String) :
    ∀ (l : List String) (prev : String),
      scanParts defs prev l = (none, none, none) ∨
      ∃ t c n, scanParts defs prev l = (some t, some c, some n) ∧
        c ∈ defs ∧ 0 ≤ n := by
  intro l
  induction l with
  | nil => intro prev; left; rfl
  | cons cur rest ih =>
    intro prev
    by_cases hc : cur ∈ defs
    · right
      exact ⟨strip_if_integer_string prev, cur, counterOf rest,
        by simp [scanParts, hc], hc, counterOf_nonneg rest⟩
    · simpa [scanParts, hc] using ih cur

/-- C9: for every basename and category list, `parse_newfragment_basename`
returns either the fully null sentinel or a fully populated triple whose
category belongs to the given definitions and whose counter is
non-negative. -/
theorem parse_total_or_sentinel (basename : String) (defs : List String) :
    parse_newfragment_basename basename defs = (none, none, none) ∨
    ∃ t c n, parse_newfragment_basename basename defs = (some t, some c, some n) ∧
      c ∈ defs ∧ 0 ≤ n := by
  rcases h : pySplitDot basename with _ | ⟨p0, _ | ⟨p1, _ | ⟨p2, rest⟩⟩⟩
  · left; simp [parse_newfragment_basename, h]
  · left; simp [parse_newfragment_basename, h]
  · by_cases hc : p1 ∈ defs
    · right
      refine ⟨strip_if_integer_string p0, p1, 0, ?_, hc, le_refl 0⟩
      simp [parse_newfragment_basename, h, hc]
    · left; simp [parse_newfragment_basename, h, hc]
  · have := scanParts_inv defs (p1 :: p2 :: rest) p0
    simpa [parse_newfragment_basename, h] using this

/-! ## C4: reject-any aggregation of `validate_cl_candidates` -/

theorem validateLoop_fst (pr_num : Int) (types : List String) :
    ∀ (l : List String) (valid : Bool),
      (validateLoop pr_num types l valid).1 = some true ↔
        (valid = true ∧ ∀ f ∈ l, (processFile pr_num types f).1 = some true) := by
  intro l
  induction l with
  | nil => intro valid; simp [validateLoop]
  | cons f rest ih =>
    intro valid
    rcases hp : processFile pr_num types f with ⟨op, d⟩
    rcases op with _ | ok
    · simp [validateLoop, hp]
    · have h2 := ih (valid && ok)
      simp only [validateLoop, hp] at h2 ⊢
      rw [h2]
      have hfst : (processFile pr_num types f).1 = some ok := by rw [hp]
      simp [hfst, Bool.and_eq_true, List.forall_mem_cons]
      tauto

/-- C4: the overall result of `validate_cl_candidates` is `True` exactly when
the candidate list is non-empty and every candidate is accepted (one
rejected candidate fails the whole check), and the empty list yields `False`
together with the distinct "no changelog files" diagnostic. -/
theorem validate_reject_any (filenames : List String) (pr_num : Int)
    (types : List String) :
    ((validate_cl_candidates filenames pr_num types).1 = some true ↔
      filenames ≠ [] ∧ ∀ f ∈ filenames, (processFile pr_num types f).1 = some true) ∧
    (filenames = [] →
      validate_cl_candidates filenames pr_num types =
        (some false, [Diag.noChangelogFiles pr_num, Diag.summaryInvalid])) := by
  constructor
  · cases filenames with
    | nil => simp [validate_cl_candidates, validateLoop]
    | cons f rest =>
      have hv : ((f :: rest).length != 0) = true := by simp
      have hl := validateLoop_fst pr_num types (f :: rest) true
      rcases hr : validateLoop pr_num types (f :: rest) true with ⟨r, d⟩
      rw [hr] at hl
      have hfst : (validate_cl_candidates (f :: rest) pr_num types).1 = r := by
        simp only [validate_cl_candidates, hv, hr]
        rcases r with _ | v
        · rfl
        · rfl
      rw [hfst, hl]
      simp
  · intro h
    subst h
    rfl

/-- Witness for C4: a single accepted candidate makes the check pass. -/
theorem validate_reject_any_witness :
    (validate_cl_candidates ["1.feature"] 1 ["feature"]).1 = some true := by
  exact (validate_reject_any ["1.feature"] 1 ["feature"]).1.mpr
    ⟨by decide, by decide⟩

/-! ## C2: the ticket / pull-request-number comparison -/

/-- C2 counterexample: `"fix.feature.rst"` has an empty directory component
and parses successfully to the non-numeric ticket `"fix"`, yet the
interpretation of the ticket as an integer is not defined: the candidate is
neither accepted nor rejected (the run raises `ValueError`, modelled as
`none`). -/
theorem ticket_int_comparison_cex :
    pyDirname "fix.feature.rst" = "" ∧
    parse_newfragment_basename "fix.feature.rst" ["feature"] =
      (some "fix", some "feature", some 0) ∧
    (processFile 42 ["feature"] "fix.feature.rst").1 = none := by
  refine ⟨by decide, by decide, by decide⟩

/-- C2 (amended): for a candidate with empty directory component and a
successful parse, when the ticket parses as an integer the candidate is
rejected exactly when that integer differs from the pull-request number
(and accepted exactly when it is equal); when the ticket does not parse as
an integer, no accept/reject decision is produced — the comparison raises. -/
theorem ticket_int_comparison (filename : String) (pr_num : Int)
    (types : List String) (t c : String) (n : Int)
    (hdir : pyDirname filename = "")
    (hparse : parse_newfragment_basename filename types = (some t, some c, some n)) :
    (∀ i : Int, pyInt? t = some i →
      (((processFile pr_num types filename).1 = some false ↔ i ≠ pr_num) ∧
       ((processFile pr_num types filename).1 = some true ↔ i = pr_num))) ∧
    (pyInt? t = none → (processFile pr_num types filename).1 = none) := by
  have hne : (parse_newfragment_basename filename types) ≠ (none, none, none) := by
    rw [hparse]; simp
  constructor
  · intro i hi
    by_cases h : i = pr_num
    · simp [processFile, hdir, hparse, hne, hi, h]
    · simp [processFile, hdir, hparse, hne, hi, h]
  · intro hi
    simp [processFile, hdir, hparse, hne, hi]

/-- Witness for C2's amended theorem: ticket `"1"` against pull request 2 is
rejected. -/
theorem ticket_int_comparison_witness :
    (processFile 2 ["feature"] "1.feature").1 = some false := by
  have h := (ticket_int_comparison "1.feature" 2 ["feature"] "1" "feature" 0
    (by decide) (by decide)).1 1 (by decide)
  exact h.1.mpr (by decide)

/-! ## C8: default category table when no `type` table is configured -/

/-- C8: for every configuration document that has the `[tool.towncrier]`
section but no explicit `type` table, `parse_toml` succeeds and returns as
the recognised category table exactly the built-in `_default_types`, whose
keys are the fixed five categories. -/
theorem default_types_when_no_type_table (raw : TowncrierTable)
    (h : raw.typeList = none) :
    ∃ cfg, parse_toml (some raw) = Except.ok cfg ∧
      cfg.types = _default_types ∧
      cfg.types.map Prod.fst = ["feature", "bugfix", "doc", "removal", "misc"] := by
  rcases raw with ⟨pkg, pdir, dir, sec, ty⟩
  simp only at h
  subst h
  exact ⟨_, rfl, rfl, rfl⟩

/-- Witness for C8: the all-defaults table. -/
theorem default_types_when_no_type_table_witness :
    ∃ cfg, parse_toml (some ⟨none, none, none, none, none⟩) = Except.ok cfg ∧
      cfg.types = _default_types ∧
      cfg.types.map Prod.fst = ["feature", "bugfix", "doc", "removal", "misc"] :=
  default_types_when_no_type_table ⟨none, none, none, none, none⟩ rfl

/-! ## C5: which files candidate collection considers -/

theorem collectStep_eq (cl_base_dir : String) (section_dirs : List String)
    (f : String) :
    collectStep cl_base_dir section_dirs f =
      (if pyEndswith f ".rst" = true ∧ pyStartswith f cl_base_dir = true ∧
          pyLstrip (pyLstrip f cl_base_dir) "/" ≠ "" then
        some (pyLstrip (pyLstrip f cl_base_dir) "/")
      else none) := by
  simp only [collectStep]
  by_cases h1 : pyEndswith f ".rst"
  · by_cases h2 : pyStartswith f cl_base_dir
    · by_cases h3 : pyLstrip (pyLstrip f cl_base_dir) "/" = ""
      · simp [h1, h2, h3]
      · simp [h1, h2, h3]
    · simp [h1, h2]
  · simp [h1]

/-- C5: candidate collection keeps exactly the changed files that end with
`".rst"` and start with the base fragment directory — the configured
`directory` when present, otherwise `package_dir/package/"newsfragments"` —
each contributing its remainder after base-directory and leading-separator
stripping, and only when that remainder is non-empty.  (In particular the
configured subsection paths have no effect on the result.) -/
theorem collect_filter_characterization (pr_files : List String)
    (config : TowncrierConfig) :
    collect_possible_changelog_files pr_files config =
      pr_files.filterMap (fun f =>
        let base :=
          match config.directory with
          | some d => d
          | none => pyPathJoin (pyPathJoin config.package_dir config.package) "newsfragments"
        if pyEndswith f ".rst" = true ∧ pyStartswith f base = true ∧
            pyLstrip (pyLstrip f base) "/" ≠ "" then
          some (pyLstrip (pyLstrip f base) "/")
        else none) := by
  simp only [collect_possible_changelog_files]
  exact List.filterMap_congr (fun f _ => collectStep_eq _ _ f)

/-! ## C7: base-directory removal is character-set trimming -/

/-- C7: the base-directory strip of candidate collection is character-set
trimming — `pyLstrip` drops every leading character occurring anywhere in
the strip string — not exact-prefix removal: from `"newss/1.feature.rst"`
with base directory `"news"` the code strips the extra `s` as well and
collects `"1.feature.rst"`, while literal-prefix removal would leave
`"s/1.feature.rst"`. -/
theorem base_strip_is_charset_trim :
    (∀ s chars : String, pyLstrip s chars =
        String.mk (s.toList.dropWhile (fun c => decide (c ∈ chars.toList)))) ∧
    collect_possible_changelog_files ["newss/1.feature.rst"]
      { package := "", package_dir := ".", directory := some "news",
        sections := [("", "")], types := _default_types } = ["1.feature.rst"] ∧
    String.mk ("newss/1.feature.rst".toList.drop "news".toList.length) =
      "s/1.feature.rst" ∧
    ("1.feature.rst" : String) ≠ "s/1.feature.rst" := by
  exact ⟨fun s chars => rfl, by decide, by decide, by decide⟩

/-! ## C1: the subsection strip on source line 89 is discarded -/

/-- C1: on source line 89 the result of `filename.lstrip(sdir).lstrip("/")`
is never assigned, so the subsection path is NOT stripped from the
candidate: for changed file `"news/sub/1.feature.rst"` with base directory
`"news"` and subsection path `"sub"`, the code collects
`"sub/1.feature.rst"` whereas the specification's collection yields
`"1.feature.rst"`; downstream validation then rejects the collected
candidate for its non-empty directory component. -/
theorem subsection_strip_discarded :
    collect_possible_changelog_files ["news/sub/1.feature.rst"]
      { package := "", package_dir := ".", directory := some "news",
        sections := [("", "sub")], types := _default_types } =
      ["sub/1.feature.rst"] ∧
    collect_possible_changelog_files_spec ["news/sub/1.feature.rst"]
      { package := "", package_dir := ".", directory := some "news",
        sections := [("", "sub")], types := _default_types } =
      ["1.feature.rst"] ∧
    (processFile 1 ["feature"] "sub/1.feature.rst").1 = some false := by
  exact ⟨by decide, by decide, by decide⟩

/-! ## C10: shape and order of the collected candidates -/

/-- C10 counterexample: with configured directory `"a.rs"` the changed file
`"a.rst"` is collected as the candidate `"t"`, which does not end with
`".rst"`. -/
theorem collect_rst_suffix_cex :
    collect_possible_changelog_files ["a.rst"]
      { package := "", package_dir := ".", directory := some "a.rs",
        sections := [("", "")], types := _default_types } = ["t"] ∧
    pyEndswith "t" ".rst" = false := by
  exact ⟨by decide, by decide⟩

/-- C10 (amended): every candidate returned by collection is a non-empty
string and a suffix of some changed file that ends with `".rst"` (the
candidate itself need not end with `".rst"` when character-set trimming eats
into the extension), and candidates of earlier files precede candidates of
later files (collection distributes over list append). -/
theorem collect_output_invariants :
    (∀ (files : List String) (config : TowncrierConfig) (c : String),
      c ∈ collect_possible_changelog_files files config →
      c ≠ "" ∧ ∃ f ∈ files, pyEndswith f ".rst" = true ∧ c.toList <:+ f.toList) ∧
    (∀ (l1 l2 : List String) (config : TowncrierConfig),
      collect_possible_changelog_files (l1 ++ l2) config =
        collect_possible_changelog_files l1 config ++
          collect_possible_changelog_files l2 config) := by
  constructor
  · intro files config c hc
    simp only [collect_possible_changelog_files, List.mem_filterMap] at hc
    obtain ⟨f, hf, hstep⟩ := hc
    rw [collectStep_eq] at hstep
    by_cases hcond : pyEndswith f ".rst" = true ∧
        pyStartswith f (match config.directory with
          | some d => d
          | none => pyPathJoin (pyPathJoin config.package_dir config.package)
              "newsfragments") = true ∧
        pyLstrip (pyLstrip f (match config.directory with
          | some d => d
          | none => pyPathJoin (pyPathJoin config.package_dir config.package)
              "newsfragments")) "/" ≠ ""
    · rw [if_pos hcond] at hstep
      obtain ⟨h1, _, h3⟩ := hcond
      obtain rfl : pyLstrip (pyLstrip f _) "/" = c := Option.some.inj hstep
      refine ⟨h3, f, hf, h1, ?_⟩
      calc (pyLstrip (pyLstrip f _) "/").toList
          <:+ (pyLstrip f _).toList := List.dropWhile_suffix _
        _ <:+ f.toList := List.dropWhile_suffix _
    · rw [if_neg hcond] at hstep
      exact absurd hstep (by simp)
  · intro l1 l2 config
    simp only [collect_possible_changelog_files]
    exact List.filterMap_append l1 l2 _

/-- Witness for C10's amended theorem at a concrete collection run. -/
theorem collect_output_invariants_witness :
    ("1.feature.rst" : String) ≠ "" ∧
    ∃ f ∈ ["changes/1.feature.rst"], pyEndswith f ".rst" = true ∧
      ("1.feature.rst" : String).toList <:+ f.toList := by
  exact collect_output_invariants.1 ["changes/1.feature.rst"]
    { package := "", package_dir := ".", directory := some "changes",
      sections := [("", "")], types := _default_types } "1.feature.rst" (by decide)

end TowncrierCheck
